import Mathlib

/-!
Verification of the svdb_gateway marshaling layer (src/utils/dpi/src/sqlite_dpi.c
and src/utils/c/src/sqlite_primitive.c) against its natural-language
specification.

C strings are modelled as `List Char`.  The SQLite engine is an external
dependency of the repository; it is modelled through the contract the wrapper
code relies on: a relational `Table` value for the data-dependent operations,
and oracle booleans for the outcomes the code branches on (prepare success,
bind success, step success).  Every engine interaction performed by the wrapper
code is recorded in an `Event` trace so that resource-handling properties
(statement finalization, null-handle dereference) are observable.
-/

namespace Svdb

abbrev CStr := List Char

/-! ## Flat-list codec

`sqlite_dpi_insert_row` (sqlite_dpi.c lines 49-75) parses its comma-separated
`columns_str` and `values_str` arguments with repeated `strtok(_, ",")` calls.
`strtok` skips over runs of separator characters: the tokens it produces are
exactly the maximal nonempty runs of non-separator characters, and empty
tokens never appear.  `strtok_aux` accumulates the current token in `acc`
(in order) and emits it when a separator or the end of the string is reached,
exactly as the `while (token != NULL)` loops in the C code collect tokens. -/

def strtok_aux : CStr → CStr → List CStr
  | [], [] => []
  | [], a :: as => [a :: as]
  | c :: cs, acc =>
    if c = ',' then
      match acc with
      | [] => strtok_aux cs []
      | a :: as => (a :: as) :: strtok_aux cs []
    else strtok_aux cs (acc ++ [c])

/-- Decode of a flat-list string as the C code performs it: the sequence of
tokens produced by `strtok(s, ",")`, `strtok(NULL, ",")`, ... -/
def strtok_split (s : CStr) : List CStr := strtok_aux s []

/-- Splitting on every comma, keeping empty tokens.  This definition follows
the SPEC's words ("a token is whatever lies between separators, including
empty tokens between adjacent separators"), not the source; it exists to be
compared with `strtok_split`, the decode the source actually performs. -/
def split_aux : CStr → CStr → List CStr
  | [], acc => [acc]
  | c :: cs, acc => if c = ',' then acc :: split_aux cs [] else split_aux cs (acc ++ [c])

/-- Spec-side decode: split on `,` keeping empty tokens. -/
def decode_flat_list_spec (s : CStr) : List CStr := split_aux s []

/-- Modelled from the spec: the encode direction of the flat-list wire format
(`token1,token2,...,tokenN`, section 6 of the spec) is performed by callers
above this repository's C layer and is not present under src/; it is the plain
comma-join of the tokens. -/
def encode_flat_list : List CStr → CStr
  | [] => []
  | t :: ts =>
    match ts with
    | [] => t
    | _ :: _ => t ++ ',' :: encode_flat_list ts

/-- Bool-valued nonemptiness test used to relate `strtok_split` to
`decode_flat_list_spec`. -/
def notEmpty : CStr → Bool
  | [] => false
  | _ :: _ => true

theorem strtok_aux_eq_filter (s : CStr) : ∀ acc : CStr,
    strtok_aux s acc = (split_aux s acc).filter notEmpty := by
  induction s with
  | nil =>
    intro acc
    cases acc <;> simp [strtok_aux, split_aux, notEmpty]
  | cons c cs ih =>
    intro acc
    by_cases hc : c = ','
    · cases acc <;> simp [strtok_aux, split_aux, hc, ih, notEmpty]
    · simp [strtok_aux, split_aux, hc, ih]

theorem split_aux_append_of_no_comma (t : CStr) (ht : ∀ c ∈ t, c ≠ ',') :
    ∀ (rest acc : CStr), split_aux (t ++ rest) acc = split_aux rest (acc ++ t) := by
  induction t with
  | nil => intro rest acc; simp
  | cons c t' ih =>
    intro rest acc
    have hc : c ≠ ',' := ht c (by simp)
    have ht' : ∀ x ∈ t', x ≠ ',' := fun x hx => ht x (by simp [hx])
    simp only [List.cons_append, split_aux, if_neg hc, List.append_eq]
    rw [ih ht' rest (acc ++ [c])]
    simp

theorem split_encode (t : CStr) (ts : List CStr)
    (h : ∀ tok ∈ t :: ts, ∀ c ∈ tok, c ≠ ',') :
    decode_flat_list_spec (encode_flat_list (t :: ts)) = t :: ts := by
  induction ts generalizing t with
  | nil =>
    have := split_aux_append_of_no_comma t (h t (by simp)) [] []
    simpa [decode_flat_list_spec, encode_flat_list, split_aux] using this
  | cons u us ih =>
    have ht : ∀ c ∈ t, c ≠ ',' := h t (by simp)
    have hrest : ∀ tok ∈ u :: us, ∀ c ∈ tok, c ≠ ',' := by
      intro tok htok
      exact h tok (by simp [htok])
    have step := split_aux_append_of_no_comma t ht
      (',' :: encode_flat_list (u :: us)) []
    have := ih u hrest
    simp only [decode_flat_list_spec, encode_flat_list] at *
    rw [step]
    simp [split_aux, this]

/-! ## Engine model

The SQLite engine is external to the repository.  The wrapper code interacts
with it through `sqlite3_prepare_v2`, `sqlite3_bind_*`, `sqlite3_step`,
`sqlite3_reset`, `sqlite3_finalize`, `sqlite3_column_*` and
`sqlite3_last_insert_rowid`.  Each such call is recorded as an `Event`; the
outcomes the wrapper branches on are supplied by oracle parameters, and the
data-dependent answers come from a `Table` value standing for the contents of
the table a statement addresses (the table-name string only influences whether
`prepare` succeeds, which the `prepOk` oracle already covers, so it is not a
separate parameter).  A database handle is `Option Table`: `none` is a NULL
`sqlite3 *` pointer; invoking the engine on a NULL handle is undefined
behavior, recorded as the `nullDeref` event (the status value returned on that
path is unconstrained by the code and fixed arbitrarily to `0`). -/

inductive Event where
  | nullDeref
  | prepare (ok : Bool)
  | bindOk
  | bindFail
  | step
  | reset
  | finalize
deriving DecidableEq

abbrev Cell := Option CStr

/-- Contents of one table: column names, and rows as (engine rowid, cells).
A cell is the text the engine reports via `sqlite3_column_text`; `none` is
SQL NULL.  Engine rowids are positive naturals (SQLite assigns up to
2^63 - 1); wherever the code or the engine narrows a rowid into a C `int`,
the model applies `toInt32`. -/
structure Table where
  cols : List CStr
  rows : List (Nat × List Cell)
deriving DecidableEq

def stepEvents (n : Nat) : List Event := List.replicate n Event.step

/-- Value of the named column in a row's cell list (engine column lookup for
`SELECT "col" ...`); `none` when the column does not exist or the cell is
SQL NULL. -/
def cellAt (t : Table) (cells : List Cell) (col : CStr) : Cell :=
  match t.cols.findIdx? (fun c => c = col) with
  | none => none
  | some i => (cells.get? i).getD none

/-- Engine lookup for `WHERE rowid = ?` with a bound int: first row whose
engine rowid equals the bound value. -/
def findByRowid (t : Table) (row_id : Int) : Option (Nat × List Cell) :=
  t.rows.find? (fun r => (r.1 : Int) = row_id)

/-- Text of an integer as the engine compares it against stored values. -/
def intChars (i : Int) : CStr := (toString i).data

def idColumn : CStr := ['i', 'd']

/-- Engine match for `WHERE id = ?` with a bound int: the explicit `id` column
of the row holds that integer. -/
def idMatches (t : Table) (r : Nat × List Cell) (row_id : Int) : Bool :=
  cellAt t r.2 idColumn = some (intChars row_id)

/-- Engine lookup for `WHERE col = ?` with a bound text value: first row whose
`col` cell equals the value (a SQL NULL cell never matches). -/
def findByColVal (t : Table) (col value : CStr) : Option (Nat × List Cell) :=
  t.rows.find? (fun r => cellAt t r.2 col = some value)

/-- Effect of the engine executing `DELETE FROM t WHERE id = ?`. -/
def deleteById (t : Table) (row_id : Int) : Table :=
  { t with rows := t.rows.filter (fun r => ! idMatches t r row_id) }

/-- Reduction of a natural number to a signed 32-bit C `int` (two's
complement), as performed by `int result = sqlite3_last_insert_rowid(db);`
in sqlite_primitive.c line 239 and by the engine's `sqlite3_column_int`,
whose `int` result `sqlite_prim_get_rowid_by_column_value` returns at
line 425. -/
def toInt32 (n : Nat) : Int :=
  if n % 2 ^ 32 < 2 ^ 31 then ((n % 2 ^ 32 : Nat) : Int)
  else ((n % 2 ^ 32 : Nat) : Int) - 2 ^ 32

/-! ## Query Execution Engine wrappers (sqlite_primitive.c) -/

/-- Oracle for `sqlite_prim_execute_query`: whether prepare succeeds, how many
times step reports a row, and whether the final step reports DONE (as opposed
to an error). -/
structure QueryOracle where
  prepOk : Bool
  rowSteps : Nat
  doneOk : Bool
deriving DecidableEq

/-- sqlite_prim_execute_query (sqlite_primitive.c lines 61-115): prepare; on
failure return -1 with nothing to finalize; otherwise step until a non-row
outcome, finalize, and return 0 exactly when the loop ended with DONE. -/
def sqlite_prim_execute_query (o : QueryOracle) (db : Option Table) (_query : CStr) :
    Int × List Event :=
  match db with
  | none => (0, [Event.nullDeref])
  | some _ =>
    if o.prepOk = false then (-1, [Event.prepare false])
    else if o.doneOk then
      (0, Event.prepare true :: (stepEvents (o.rowSteps + 1) ++ [Event.finalize]))
    else
      (-1, Event.prepare true :: (stepEvents (o.rowSteps + 1) ++ [Event.finalize]))

/-- sqlite_prim_get_cell_value (lines 121-149): prepare
`SELECT "col" FROM t WHERE rowid = ?`; on prepare failure return NULL; bind
the rowid (result unchecked by the code); if step yields a row, the result is
the text of its first column (NULL cell gives NULL), otherwise NULL; finalize
in both cases. -/
def sqlite_prim_get_cell_value (prepOk : Bool) (db : Option Table) (row_id : Int)
    (col : CStr) : Cell × List Event :=
  match db with
  | none => (none, [Event.nullDeref])
  | some t =>
    if prepOk = false then (none, [Event.prepare false])
    else
      match findByRowid t row_id with
      | some r =>
        (cellAt t r.2 col, [Event.prepare true, Event.bindOk, Event.step, Event.finalize])
      | none => (none, [Event.prepare true, Event.bindOk, Event.step, Event.finalize])

/-- sqlite_prim_get_row (lines 151-183): prepare
`SELECT * FROM t WHERE id = ?`; bind the id (unchecked); if a row is found,
duplicate the column names and cell texts and return 0, else return -1;
finalize on both paths. -/
def sqlite_prim_get_row (prepOk : Bool) (db : Option Table) (row_id : Int) :
    Int × Option (List CStr × List Cell) × List Event :=
  match db with
  | none => (0, none, [Event.nullDeref])
  | some t =>
    if prepOk = false then (-1, none, [Event.prepare false])
    else
      match t.rows.find? (fun r => idMatches t r row_id) with
      | some r =>
        (0, some (t.cols, r.2), [Event.prepare true, Event.bindOk, Event.step, Event.finalize])
      | none => (-1, none, [Event.prepare true, Event.bindOk, Event.step, Event.finalize])

/-- Oracle for `sqlite_prim_insert_row`: prepare success, the index of the
first failing `sqlite3_bind_text` call if any, step success, and the rowid the
engine assigned to the new row (reported by `sqlite3_last_insert_rowid`;
engine contract: at least 1). -/
structure InsertOracle where
  prepOk : Bool
  bindFail : Option Nat
  stepOk : Bool
  lastRowid : Nat
deriving DecidableEq

def bindEvents (n : Nat) : List Event := List.replicate n Event.bindOk

/-- Tail of `sqlite_prim_insert_row` after all `count` binds succeeded
(sqlite_primitive.c lines 231-242): step; on failure finalize and return -1;
on success read `sqlite3_last_insert_rowid` into a C `int`, finalize, and
return it. -/
def insert_after_binds (o : InsertOracle) (count : Nat) : Int × List Event :=
  if o.stepOk = false then
    (-1, Event.prepare true :: (bindEvents count ++ [Event.step, Event.finalize]))
  else
    (toInt32 o.lastRowid,
      Event.prepare true :: (bindEvents count ++ [Event.step, Event.finalize]))

/-- sqlite_prim_insert_row (lines 185-243): build
`INSERT INTO t (cols) VALUES (?, ...)` (the literal query-text assembly by
`strcat` is not modelled; identifiers are interpolated verbatim per the spec),
prepare it, bind the `count` values positionally — the first failing bind
finalizes and returns -1 — then step, and on success return the engine's last
insert rowid narrowed to a C `int`. -/
def sqlite_prim_insert_row (o : InsertOracle) (db : Option Table)
    (_columns _values : List CStr) (count : Nat) : Int × List Event :=
  match db with
  | none => (0, [Event.nullDeref])
  | some _ =>
    if o.prepOk = false then (-1, [Event.prepare false])
    else
      match o.bindFail with
      | some i =>
        if i < count then
          (-1, Event.prepare true :: (bindEvents i ++ [Event.bindFail, Event.finalize]))
        else insert_after_binds o count
      | none => insert_after_binds o count

/-- sqlite_prim_delete_row (lines 245-266): prepare
`DELETE FROM t WHERE id = ?`, bind the id (unchecked), step — the engine
contract lets the step fail (e.g. a trigger or constraint) only when some row
is actually affected; a DELETE matching no row steps to DONE — and finalize on
both paths, returning 0 on DONE and -1 otherwise.  The resulting database
state is returned alongside the status. -/
def sqlite_prim_delete_row (prepOk stepFails : Bool) (db : Option Table) (row_id : Int) :
    Int × Option Table × List Event :=
  match db with
  | none => (0, none, [Event.nullDeref])
  | some t =>
    if prepOk = false then (-1, some t, [Event.prepare false])
    else if (t.rows.any (fun r => idMatches t r row_id)) && stepFails then
      (-1, some t, [Event.prepare true, Event.bindOk, Event.step, Event.finalize])
    else
      (0, some (deleteById t row_id),
        [Event.prepare true, Event.bindOk, Event.step, Event.finalize])

/-- sqlite_prim_get_all_rows (lines 272-304): prepare `SELECT * FROM t`; first
pass steps through all rows counting them; `sqlite3_reset`; the column count
is read from statement metadata; the second pass fills a freshly allocated
row-count-sized array with duplicated cell texts; finalize and return 0 with
the rows, the row count and the column count (the `malloc` results are not
checked by this code, so allocation is not an oracle here). -/
def sqlite_prim_get_all_rows (prepOk : Bool) (db : Option Table) :
    Int × Option (List (List Cell) × Nat × Nat) × List Event :=
  match db with
  | none => (0, none, [Event.nullDeref])
  | some t =>
    if prepOk = false then (-1, none, [Event.prepare false])
    else
      (0, some (t.rows.map (fun r => r.2), t.rows.length, t.cols.length),
        Event.prepare true ::
          (stepEvents (t.rows.length + 1) ++ Event.reset ::
            (stepEvents (t.rows.length + 1) ++ [Event.finalize])))

/-- sqlite_prim_get_rowid_by_column_value (lines 401-433): prepare
`SELECT rowid FROM t WHERE col = ?` (-1 on failure); bind the text value,
finalizing and returning -1 on bind failure; step: a row yields its rowid via
`sqlite3_column_int` — a 32-bit C `int`, so the 64-bit engine rowid is
narrowed by `toInt32` — while no row leaves the initial -1; finalize and
return. -/
def sqlite_prim_get_rowid_by_column_value (prepOk bindOk : Bool) (db : Option Table)
    (col value : CStr) : Int × List Event :=
  match db with
  | none => (0, [Event.nullDeref])
  | some t =>
    if prepOk = false then (-1, [Event.prepare false])
    else if bindOk = false then (-1, [Event.prepare true, Event.bindFail, Event.finalize])
    else
      match findByColVal t col value with
      | some r => (toInt32 r.1, [Event.prepare true, Event.bindOk, Event.step, Event.finalize])
      | none => (-1, [Event.prepare true, Event.bindOk, Event.step, Event.finalize])

/-- sqlite_prim_get_row_by_rowid (lines 435-488): prepare
`SELECT * FROM t WHERE rowid = ?` (-1 on failure); bind the rowid, finalizing
and returning -1 on bind failure; if a row is found: fewer actual columns than
requested, or a failed allocation of the values array, finalize and return -1,
otherwise the first `col_count` cell texts are returned with status 0; a
missing row finalizes and returns -1. -/
def sqlite_prim_get_row_by_rowid (prepOk bindOk allocOk : Bool) (db : Option Table)
    (row_id : Int) (col_count : Nat) : Int × Option (List Cell) × List Event :=
  match db with
  | none => (0, none, [Event.nullDeref])
  | some t =>
    if prepOk = false then (-1, none, [Event.prepare false])
    else if bindOk = false then
      (-1, none, [Event.prepare true, Event.bindFail, Event.finalize])
    else
      match findByRowid t row_id with
      | some r =>
        if t.cols.length < col_count then
          (-1, none, [Event.prepare true, Event.bindOk, Event.step, Event.finalize])
        else if allocOk = false then
          (-1, none, [Event.prepare true, Event.bindOk, Event.step, Event.finalize])
        else
          (0, some (r.2.take col_count),
            [Event.prepare true, Event.bindOk, Event.step, Event.finalize])
      | none => (-1, none, [Event.prepare true, Event.bindOk, Event.step, Event.finalize])

/-! ## Boundary Adapter (sqlite_dpi.c)

The DPI entry points.  Five of the seven handle-taking entry points pass the
handle straight to the primitive layer without a null check; only
`sqlite_dpi_get_rowid_by_column_value` and `sqlite_dpi_get_cell_value`
(sqlite_dpi.c lines 137-143 and 207-213) test `if (!db)` first. -/

def sqlite_dpi_execute_query (o : QueryOracle) (db : Option Table) (query : CStr) :
    Int × List Event :=
  sqlite_prim_execute_query o db query

/-- sqlite_dpi_insert_row (sqlite_dpi.c lines 44-108): strtok-decode the two
flat-list arguments; if the token counts differ, free the tokens and return -1
without touching the database; otherwise call sqlite_prim_insert_row with the
decoded tokens and their common count and return its result. -/
def sqlite_dpi_insert_row (o : InsertOracle) (db : Option Table)
    (columns_str values_str : CStr) : Int × List Event :=
  let columns := strtok_split columns_str
  let values := strtok_split values_str
  if columns.length ≠ values.length then (-1, [])
  else sqlite_prim_insert_row o db columns values columns.length

def sqlite_dpi_delete_row (prepOk stepFails : Bool) (db : Option Table) (row_id : Int) :
    Int × Option Table × List Event :=
  sqlite_prim_delete_row prepOk stepFails db row_id

/-- sqlite_dpi_get_row (lines 115-135): call sqlite_prim_get_row and, on
success, free the returned arrays; only the status crosses the boundary. -/
def sqlite_dpi_get_row (prepOk : Bool) (db : Option Table) (row_id : Int) :
    Int × List Event :=
  let r := sqlite_prim_get_row prepOk db row_id
  (r.1, r.2.2)

def sqlite_dpi_get_all_rows (prepOk : Bool) (db : Option Table) :
    Int × Option (List (List Cell) × Nat × Nat) × List Event :=
  sqlite_prim_get_all_rows prepOk db

/-- sqlite_dpi_get_rowid_by_column_value (lines 137-143): NULL handle is
rejected with -1 before any engine call. -/
def sqlite_dpi_get_rowid_by_column_value (prepOk bindOk : Bool) (db : Option Table)
    (col value : CStr) : Int × List Event :=
  match db with
  | none => (-1, [])
  | some t => sqlite_prim_get_rowid_by_column_value prepOk bindOk (some t) col value

/-- sqlite_dpi_get_cell_value (lines 207-213): NULL handle is rejected with
NULL before any engine call. -/
def sqlite_dpi_get_cell_value (prepOk : Bool) (db : Option Table) (row_id : Int)
    (col : CStr) : Cell × List Event :=
  match db with
  | none => (none, [])
  | some t => sqlite_prim_get_cell_value prepOk (some t) row_id col

/-! ## Claim C1 -/

/-- C1 counterexample: the claim states that decoding "a,,b" yields the three
tokens ["a", "", "b"]; the strtok-based decode of sqlite_dpi_insert_row drops
the empty token and yields the two tokens ["a", "b"]. -/
theorem C1_counterexample :
    strtok_split ['a', ',', ',', 'b'] = [['a'], ['b']] ∧
    strtok_split ['a', ',', ',', 'b'] ≠ [['a'], [], ['b']] := by decide

/-- C1 (amended): the flat-list decode splits on ',' with no trimming and no
escaping, but — because it is built on strtok, which treats runs of separators
as one and skips leading and trailing separators — every empty token is
dropped: the decode returns exactly the nonempty tokens of the comma split,
in order (so decoding "a,,b" yields ["a", "b"]). -/
theorem C1_strtok_split_eq_filtered_split (s : CStr) :
    strtok_split s = (decode_flat_list_spec s).filter notEmpty :=
  strtok_aux_eq_filter s []

/-! ## Claim C5 -/

/-- C5 counterexample: the token list ["a", "", "b"] contains no comma in any
token, yet encoding it as a flat list ("a,,b") and decoding it back does not
restore it (the empty token is lost). -/
theorem C5_counterexample :
    (∀ tok ∈ [['a'], [], ['b']], ∀ c ∈ tok, c ≠ ',') ∧
    strtok_split (encode_flat_list [['a'], [], ['b']]) ≠ [['a'], [], ['b']] := by
  decide

/-- C5 (amended): for every ordered sequence of tokens in which no token
contains a comma AND no token is empty, comma-join encoding followed by the
code's strtok decode yields exactly the original sequence. -/
theorem C5_roundtrip (ts : List CStr)
    (h : ∀ tok ∈ ts, tok ≠ [] ∧ ∀ c ∈ tok, c ≠ ',') :
    strtok_split (encode_flat_list ts) = ts := by
  cases ts with
  | nil => rfl
  | cons t ts' =>
    have hnc : ∀ tok ∈ t :: ts', ∀ c ∈ tok, c ≠ ',' := fun tok htok => (h tok htok).2
    have hne : ∀ tok ∈ t :: ts', notEmpty tok = true := by
      intro tok htok
      rcases tok with _ | ⟨a, as⟩
      · exact absurd rfl (h [] htok).1
      · rfl
    calc strtok_split (encode_flat_list (t :: ts'))
        = (decode_flat_list_spec (encode_flat_list (t :: ts'))).filter notEmpty :=
          strtok_aux_eq_filter _ []
      _ = (t :: ts').filter notEmpty := by rw [split_encode t ts' hnc]
      _ = t :: ts' := List.filter_eq_self.mpr hne

/-- C5 witness: the amended round trip at the concrete token list
["ab", "c"]. -/
theorem C5_witness :
    (∀ tok ∈ [['a', 'b'], ['c']], tok ≠ [] ∧ ∀ c ∈ tok, c ≠ ',') ∧
    strtok_split (encode_flat_list [['a', 'b'], ['c']]) = [['a', 'b'], ['c']] :=
  ⟨by decide, C5_roundtrip _ (by decide)⟩

/-! ## Claim C3 -/

/-- C3: whenever the strtok-decoded column tokens and value tokens of
sqlite_dpi_insert_row differ in number, the call returns the negative status
-1 and performs no engine interaction at all (empty event trace: no SQL
statement is constructed, prepared or executed, so the database state is
untouched). -/
theorem C3_insert_arity_mismatch (o : InsertOracle) (db : Option Table)
    (columns_str values_str : CStr)
    (h : (strtok_split columns_str).length ≠ (strtok_split values_str).length) :
    sqlite_dpi_insert_row o db columns_str values_str = (-1, []) := by
  simp [sqlite_dpi_insert_row, h]

/-- C3 witness: inserting with columns "a,b" (two tokens) and values "1" (one
token) returns -1 with no engine call. -/
theorem C3_witness :
    (strtok_split ['a', ',', 'b']).length ≠ (strtok_split ['1']).length ∧
    sqlite_dpi_insert_row ⟨true, none, true, 1⟩ (some ⟨[], []⟩) ['a', ',', 'b'] ['1'] =
      (-1, []) :=
  ⟨by decide, C3_insert_arity_mismatch _ _ _ _ (by decide)⟩

/-! ## Claim C2 -/

/-- C2 counterexample: sqlite_dpi_execute_query performs no null check — on a
NULL database handle it passes the handle straight to the engine's prepare
call (the nullDeref event) instead of returning a NullHandle error without
touching the engine. -/
theorem C2_counterexample :
    Event.nullDeref ∈ (sqlite_dpi_execute_query ⟨true, 0, true⟩ none []).2 := by
  decide

/-- C2 (amended): only sqlite_dpi_get_rowid_by_column_value and
sqlite_dpi_get_cell_value validate the database handle, returning -1
respectively NULL on a NULL handle with no engine interaction; the other
handle-taking query entry points (execute_query, insert_row, delete_row,
get_row, get_all_rows) perform no null check and hand the NULL handle to the
engine. -/
theorem C2_null_handle_validation (qo : QueryOracle) (io : InsertOracle)
    (p b s : Bool) (q col value : CStr) (row_id : Int) :
    sqlite_dpi_get_rowid_by_column_value p b none col value = (-1, []) ∧
    sqlite_dpi_get_cell_value p none row_id col = (none, []) ∧
    Event.nullDeref ∈ (sqlite_dpi_execute_query qo none q).2 ∧
    Event.nullDeref ∈ (sqlite_dpi_insert_row io none q q).2 ∧
    Event.nullDeref ∈ (sqlite_dpi_delete_row p s none row_id).2.2 ∧
    Event.nullDeref ∈ (sqlite_dpi_get_row p none row_id).2 ∧
    Event.nullDeref ∈ (sqlite_dpi_get_all_rows p none).2.2 := by
  refine ⟨rfl, rfl, ?_, ?_, ?_, ?_, ?_⟩
  · simp [sqlite_dpi_execute_query, sqlite_prim_execute_query]
  · simp [sqlite_dpi_insert_row, sqlite_prim_insert_row]
  · simp [sqlite_dpi_delete_row, sqlite_prim_delete_row]
  · simp [sqlite_dpi_get_row, sqlite_prim_get_row]
  · simp [sqlite_dpi_get_all_rows, sqlite_prim_get_all_rows]

/-! ## Claim C4 -/

def isFinalize : Event → Bool
  | Event.finalize => true
  | _ => false

def isPrepOk : Event → Bool
  | Event.prepare true => true
  | _ => false

/-- Number of sqlite3_finalize calls recorded in a trace. -/
def finCount (tr : List Event) : Nat := tr.countP isFinalize

/-- Number of successful sqlite3_prepare_v2 calls recorded in a trace. -/
def prepOkCount (tr : List Event) : Nat := tr.countP isPrepOk

theorem countP_replicate_zero (p : Event → Bool) (e : Event) (h : p e = false)
    (n : Nat) : List.countP p (List.replicate n e) = 0 := by
  induction n with
  | zero => simp
  | succ n ih => simp [List.replicate_succ, List.countP_cons, h, ih]

/-- C4: in every execution of each of the eight query-execution operations,
the number of finalize calls in the engine trace equals the number of
successful prepare calls: a successfully prepared statement is finalized
exactly once before the operation returns — on the success path and on every
failure path (step error, bind error, allocation failure, row not found) —
and nothing is finalized when preparation failed. -/
theorem C4_finalize_exactly_once (qo : QueryOracle) (io : InsertOracle)
    (p b s a : Bool) (db : Option Table) (q col value : CStr)
    (cols vals : List CStr) (row_id : Int) (count col_count : Nat) :
    finCount (sqlite_prim_execute_query qo db q).2 =
      prepOkCount (sqlite_prim_execute_query qo db q).2 ∧
    finCount (sqlite_prim_insert_row io db cols vals count).2 =
      prepOkCount (sqlite_prim_insert_row io db cols vals count).2 ∧
    finCount (sqlite_prim_delete_row p s db row_id).2.2 =
      prepOkCount (sqlite_prim_delete_row p s db row_id).2.2 ∧
    finCount (sqlite_prim_get_row p db row_id).2.2 =
      prepOkCount (sqlite_prim_get_row p db row_id).2.2 ∧
    finCount (sqlite_prim_get_all_rows p db).2.2 =
      prepOkCount (sqlite_prim_get_all_rows p db).2.2 ∧
    finCount (sqlite_prim_get_cell_value p db row_id col).2 =
      prepOkCount (sqlite_prim_get_cell_value p db row_id col).2 ∧
    finCount (sqlite_prim_get_rowid_by_column_value p b db col value).2 =
      prepOkCount (sqlite_prim_get_rowid_by_column_value p b db col value).2 ∧
    finCount (sqlite_prim_get_row_by_rowid p b a db row_id col_count).2.2 =
      prepOkCount (sqlite_prim_get_row_by_rowid p b a db row_id col_count).2.2 := by
  refine ⟨?_, ?_, ?_, ?_, ?_, ?_, ?_, ?_⟩
  · cases db with
    | none => simp [sqlite_prim_execute_query, finCount, prepOkCount, isFinalize, isPrepOk]
    | some t =>
      rcases qo with ⟨po, n, dk⟩
      cases po <;> cases dk <;>
        simp [sqlite_prim_execute_query, finCount, prepOkCount, stepEvents,
          List.countP_cons, countP_replicate_zero, isFinalize, isPrepOk]
  · cases db with
    | none => simp [sqlite_prim_insert_row, finCount, prepOkCount, isFinalize, isPrepOk]
    | some t =>
      rcases io with ⟨po, bf, so, lr⟩
      cases po with
      | false => simp [sqlite_prim_insert_row, finCount, prepOkCount, isFinalize, isPrepOk]
      | true =>
        rcases bf with _ | i
        · cases so <;>
            simp [sqlite_prim_insert_row, insert_after_binds, bindEvents,
              finCount, prepOkCount, List.countP_cons, countP_replicate_zero,
              isFinalize, isPrepOk]
        · by_cases hi : i < count <;> cases so <;>
            simp [sqlite_prim_insert_row, insert_after_binds, bindEvents, hi,
              finCount, prepOkCount, List.countP_cons, countP_replicate_zero,
              isFinalize, isPrepOk]
  · cases db with
    | none => simp [sqlite_prim_delete_row, finCount, prepOkCount, isFinalize, isPrepOk]
    | some t =>
      cases p with
      | false => simp [sqlite_prim_delete_row, finCount, prepOkCount, isFinalize, isPrepOk]
      | true =>
        by_cases hc : ((t.rows.any (fun r => idMatches t r row_id)) && s) = true <;>
          simp [sqlite_prim_delete_row, hc, finCount, prepOkCount,
            List.countP_cons, isFinalize, isPrepOk]
  · cases db with
    | none => simp [sqlite_prim_get_row, finCount, prepOkCount, isFinalize, isPrepOk]
    | some t =>
      cases p with
      | false => simp [sqlite_prim_get_row, finCount, prepOkCount, isFinalize, isPrepOk]
      | true =>
        cases hfind : t.rows.find? (fun r => idMatches t r row_id) <;>
          simp [sqlite_prim_get_row, hfind, finCount, prepOkCount,
            List.countP_cons, isFinalize, isPrepOk]
  · cases db with
    | none => simp [sqlite_prim_get_all_rows, finCount, prepOkCount, isFinalize, isPrepOk]
    | some t =>
      cases p <;>
        simp [sqlite_prim_get_all_rows, stepEvents, finCount, prepOkCount,
          List.countP_cons, countP_replicate_zero, isFinalize, isPrepOk]
  · cases db with
    | none => simp [sqlite_prim_get_cell_value, finCount, prepOkCount, isFinalize, isPrepOk]
    | some t =>
      cases p with
      | false => simp [sqlite_prim_get_cell_value, finCount, prepOkCount, isFinalize, isPrepOk]
      | true =>
        cases hfind : findByRowid t row_id <;>
          simp [sqlite_prim_get_cell_value, hfind, finCount, prepOkCount,
            List.countP_cons, isFinalize, isPrepOk]
  · cases db with
    | none =>
      simp [sqlite_prim_get_rowid_by_column_value, finCount, prepOkCount,
        isFinalize, isPrepOk]
    | some t =>
      cases p with
      | false =>
        simp [sqlite_prim_get_rowid_by_column_value, finCount, prepOkCount,
          isFinalize, isPrepOk]
      | true =>
        cases b with
        | false =>
          simp [sqlite_prim_get_rowid_by_column_value, finCount, prepOkCount,
            List.countP_cons, isFinalize, isPrepOk]
        | true =>
          cases hfind : findByColVal t col value <;>
            simp [sqlite_prim_get_rowid_by_column_value, hfind, finCount,
              prepOkCount, List.countP_cons, isFinalize, isPrepOk]
  · cases db with
    | none => simp [sqlite_prim_get_row_by_rowid, finCount, prepOkCount, isFinalize, isPrepOk]
    | some t =>
      cases p with
      | false =>
        simp [sqlite_prim_get_row_by_rowid, finCount, prepOkCount, isFinalize, isPrepOk]
      | true =>
        cases b with
        | false =>
          simp [sqlite_prim_get_row_by_rowid, finCount, prepOkCount,
            List.countP_cons, isFinalize, isPrepOk]
        | true =>
          cases hfind : findByRowid t row_id with
          | none =>
            simp [sqlite_prim_get_row_by_rowid, hfind, finCount, prepOkCount,
              List.countP_cons, isFinalize, isPrepOk]
          | some r =>
            by_cases hcc : t.cols.length < col_count
            · simp [sqlite_prim_get_row_by_rowid, hfind, hcc, finCount, prepOkCount,
                List.countP_cons, isFinalize, isPrepOk]
            · cases a <;>
                simp [sqlite_prim_get_row_by_rowid, hfind, hcc, finCount, prepOkCount,
                  List.countP_cons, isFinalize, isPrepOk]

/-! ## Claim C6 -/

/-- C6 counterexample: with the engine assigning rowid 2^31 to the new row, a
fully successful insert (prepare ok, all binds ok, step DONE) returns -(2^31)
— the 64-bit last-insert rowid narrowed into the C `int` return value at
sqlite_primitive.c line 239 — which is neither the engine-assigned row
identifier nor a positive integer. -/
theorem C6_counterexample :
    (sqlite_prim_insert_row ⟨true, none, true, 2 ^ 31⟩ (some ⟨[], []⟩)
      [['a']] [['1']] 1).1 = -(2 ^ 31) ∧
    ¬ (0 < (sqlite_prim_insert_row ⟨true, none, true, 2 ^ 31⟩ (some ⟨[], []⟩)
      [['a']] [['1']] 1).1) := by
  decide

/-- C6 (amended): for every insert that succeeds (statement prepared, all
values bound, step completes), the returned value is the engine-assigned
rowid of the new row narrowed to a signed 32-bit integer; whenever that rowid
is positive and below 2^31, the returned value equals the engine-assigned
rowid exactly and is a positive integer. -/
theorem C6_insert_success_returns_rowid (o : InsertOracle) (t : Table)
    (cols vals : List CStr) (count : Nat)
    (hp : o.prepOk = true) (hb : o.bindFail = none) (hs : o.stepOk = true) :
    (sqlite_prim_insert_row o (some t) cols vals count).1 = toInt32 o.lastRowid ∧
    (1 ≤ o.lastRowid → o.lastRowid < 2 ^ 31 →
      (sqlite_prim_insert_row o (some t) cols vals count).1 = (o.lastRowid : Int) ∧
      0 < (sqlite_prim_insert_row o (some t) cols vals count).1) := by
  have h1 : (sqlite_prim_insert_row o (some t) cols vals count).1 = toInt32 o.lastRowid := by
    simp [sqlite_prim_insert_row, hp, hb, insert_after_binds, hs]
  refine ⟨h1, fun h1le hlt => ?_⟩
  have hmod : o.lastRowid % 2 ^ 32 = o.lastRowid :=
    Nat.mod_eq_of_lt (lt_trans hlt (by norm_num))
  have h32 : toInt32 o.lastRowid = (o.lastRowid : Int) := by
    unfold toInt32
    rw [hmod, if_pos hlt]
  refine ⟨h1.trans h32, ?_⟩
  rw [h1, h32]
  exact_mod_cast h1le

/-- C6 witness: a successful insert with engine rowid 5 returns 5, a positive
value. -/
theorem C6_witness :
    (sqlite_prim_insert_row ⟨true, none, true, 5⟩ (some ⟨[], []⟩)
      [['a']] [['1']] 1).1 = 5 ∧
    0 < (sqlite_prim_insert_row ⟨true, none, true, 5⟩ (some ⟨[], []⟩)
      [['a']] [['1']] 1).1 :=
  (C6_insert_success_returns_rowid ⟨true, none, true, 5⟩ ⟨[], []⟩
    [['a']] [['1']] 1 rfl rfl rfl).2 (by decide) (by decide)

/-! ## Claim C7 -/

/-- C7: a delete_row call whose id matches no row of the table (under a
successful prepare; the engine's DELETE then affects zero rows and steps to
DONE) returns status 0 — not an error — and leaves the table contents, row
count included, unchanged. -/
theorem C7_delete_missing_id (t : Table) (row_id : Int) (stepFails : Bool)
    (h : ∀ r ∈ t.rows, idMatches t r row_id = false) :
    (sqlite_prim_delete_row true stepFails (some t) row_id).1 = 0 ∧
    (sqlite_prim_delete_row true stepFails (some t) row_id).2.1 = some t := by
  have hany : t.rows.any (fun r => idMatches t r row_id) = false := by
    simp only [List.any_eq_false]
    intro r hr
    simp [h r hr]
  have hdel : deleteById t row_id = t := by
    have hfilter : t.rows.filter (fun r => ! idMatches t r row_id) = t.rows :=
      List.filter_eq_self.mpr (by intro r hr; simp [h r hr])
    simp only [deleteById, hfilter]
  constructor <;> simp [sqlite_prim_delete_row, hany, hdel]

/-- C7 witness: deleting id 5 from a one-row table whose only row has id 7
returns 0 and leaves the table as it was. -/
theorem C7_witness :
    (∀ r ∈ (Table.mk [['i', 'd']] [(1, [some ['7']])]).rows,
      idMatches (Table.mk [['i', 'd']] [(1, [some ['7']])]) r 5 = false) ∧
    (sqlite_prim_delete_row true false
      (some (Table.mk [['i', 'd']] [(1, [some ['7']])])) 5).1 = 0 ∧
    (sqlite_prim_delete_row true false
      (some (Table.mk [['i', 'd']] [(1, [some ['7']])])) 5).2.1 =
      some (Table.mk [['i', 'd']] [(1, [some ['7']])]) :=
  ⟨by decide, C7_delete_missing_id _ 5 false (by decide)⟩

/-! ## Claim C8 -/

/-- C8: get_all_rows on an existing table (prepare succeeds) containing zero
rows returns status 0, reports row count 0 and reports the table's column
count, read once from statement metadata. -/
theorem C8_get_all_rows_empty (t : Table) (h : t.rows = []) :
    (sqlite_prim_get_all_rows true (some t)).1 = 0 ∧
    (sqlite_prim_get_all_rows true (some t)).2.1 = some ([], 0, t.cols.length) := by
  simp [sqlite_prim_get_all_rows, h]

/-- C8 witness: the empty two-column table yields status 0, row count 0,
column count 2. -/
theorem C8_witness :
    (sqlite_prim_get_all_rows true (some (Table.mk [['i', 'd'], ['n']] []))).1 = 0 ∧
    (sqlite_prim_get_all_rows true (some (Table.mk [['i', 'd'], ['n']] []))).2.1 =
      some ([], 0, 2) :=
  ⟨(C8_get_all_rows_empty (Table.mk [['i', 'd'], ['n']] []) rfl).1,
   (C8_get_all_rows_empty (Table.mk [['i', 'd'], ['n']] []) rfl).2⟩

/-! ## Claim C9 -/

theorem toInt32_eq_of_lt (n : Nat) (h : n < 2 ^ 31) : toInt32 n = (n : Int) := by
  have hmod : n % 2 ^ 32 = n := Nat.mod_eq_of_lt (lt_trans h (by norm_num))
  unfold toInt32
  rw [hmod, if_pos h]

/-- C9 counterexample: on a table whose single row matches the searched value
and carries engine rowid 2^32 - 1, get_rowid_by_column_value returns -1 —
`sqlite3_column_int`'s 32-bit narrowing of the 64-bit rowid — not the engine
row identifier of the matching row, and a value identical to the
NotFound/failure return. -/
theorem C9_counterexample :
    findByColVal (Table.mk [['c']] [(2 ^ 32 - 1, [some ['x']])]) ['c'] ['x'] =
      some (2 ^ 32 - 1, [some ['x']]) ∧
    (sqlite_prim_get_rowid_by_column_value true true
      (some (Table.mk [['c']] [(2 ^ 32 - 1, [some ['x']])])) ['c'] ['x']).1 = -1 ∧
    (sqlite_prim_get_rowid_by_column_value true true
      (some (Table.mk [['c']] [(2 ^ 32 - 1, [some ['x']])])) ['c'] ['x']).1 ≠
      ((2 ^ 32 - 1 : Nat) : Int) := by
  decide

/-- C9 (amended): sqlite_prim_get_rowid_by_column_value returns -1 when
statement preparation fails, -1 when parameter binding fails, and -1 when no
row matches the given column value — the same value in all three cases, so a
caller cannot distinguish NotFound from an engine failure from the return
value alone — and, when at least one row matches, returns the engine rowid of
the first matching row narrowed to a signed 32-bit integer by
`sqlite3_column_int`: equal to that rowid exactly whenever the rowid is below
2^31. -/
theorem C9_get_rowid_conflation (t : Table) (col value : CStr) (b : Bool) :
    (sqlite_prim_get_rowid_by_column_value false b (some t) col value).1 = -1 ∧
    (sqlite_prim_get_rowid_by_column_value true false (some t) col value).1 = -1 ∧
    (findByColVal t col value = none →
      (sqlite_prim_get_rowid_by_column_value true true (some t) col value).1 = -1) ∧
    (∀ r, findByColVal t col value = some r →
      (sqlite_prim_get_rowid_by_column_value true true (some t) col value).1 =
        toInt32 r.1 ∧
      (r.1 < 2 ^ 31 →
        (sqlite_prim_get_rowid_by_column_value true true (some t) col value).1 =
          (r.1 : Int))) := by
  refine ⟨?_, ?_, ?_, ?_⟩
  · simp [sqlite_prim_get_rowid_by_column_value]
  · simp [sqlite_prim_get_rowid_by_column_value]
  · intro hf
    simp [sqlite_prim_get_rowid_by_column_value, hf]
  · intro r hf
    have hmain : (sqlite_prim_get_rowid_by_column_value true true (some t) col value).1 =
        toInt32 r.1 := by
      simp [sqlite_prim_get_rowid_by_column_value, hf]
    exact ⟨hmain, fun hlt => hmain.trans (toInt32_eq_of_lt r.1 hlt)⟩

/-- C9 witness: on a table whose single row (rowid 4) holds value "x" in
column "c", searching for "y" returns -1 and searching for "x" returns 4. -/
theorem C9_witness :
    (sqlite_prim_get_rowid_by_column_value true true
      (some (Table.mk [['c']] [(4, [some ['x']])])) ['c'] ['y']).1 = -1 ∧
    (sqlite_prim_get_rowid_by_column_value true true
      (some (Table.mk [['c']] [(4, [some ['x']])])) ['c'] ['x']).1 = 4 :=
  ⟨(C9_get_rowid_conflation (Table.mk [['c']] [(4, [some ['x']])])
      ['c'] ['y'] true).2.2.1 (by decide),
   ((C9_get_rowid_conflation (Table.mk [['c']] [(4, [some ['x']])])
      ['c'] ['x'] true).2.2.2 (4, [some ['x']]) (by decide)).2 (by decide)⟩

/-! ## Claim C10 -/

/-- C10: under a successful prepare, get_cell_value returns NULL both when no
row with the given engine rowid exists in the table and when the addressed
row exists but the cell's value is SQL NULL — so an absent result does not
imply that the row is missing. -/
theorem C10_get_cell_value_absent (t : Table) (row_id : Int) (col : CStr) :
    (findByRowid t row_id = none →
      (sqlite_prim_get_cell_value true (some t) row_id col).1 = none) ∧
    (∀ r, findByRowid t row_id = some r → cellAt t r.2 col = none →
      (sqlite_prim_get_cell_value true (some t) row_id col).1 = none) := by
  constructor
  · intro hf
    simp [sqlite_prim_get_cell_value, hf]
  · intro r hf hc
    simp [sqlite_prim_get_cell_value, hf, hc]

/-- C10 witness: on a table whose single row has rowid 1 and a NULL cell in
column "c", asking for rowid 2 (missing row) returns NULL and asking for
rowid 1 (present row, NULL cell) also returns NULL. -/
theorem C10_witness :
    (sqlite_prim_get_cell_value true
      (some (Table.mk [['c']] [(1, [none])])) 2 ['c']).1 = none ∧
    (sqlite_prim_get_cell_value true
      (some (Table.mk [['c']] [(1, [none])])) 1 ['c']).1 = none :=
  ⟨(C10_get_cell_value_absent (Table.mk [['c']] [(1, [none])]) 2 ['c']).1 (by decide),
   (C10_get_cell_value_absent (Table.mk [['c']] [(1, [none])]) 1 ['c']).2
     (1, [none]) (by decide) (by decide)⟩

end Svdb

